import Mathlib

/-
Verification of the repo-gardening triage-issues task
(src/projects/github-actions/repo-gardening/src/tasks/triage-issues/index.js).

The JavaScript source is shallowly embedded below.  Strings are modelled by
Lean String / List Char; the fixed regular expressions of the source are
modelled by dedicated scanners that reproduce the leftmost-match semantics of
RegExp.exec, which is deterministic here because every capture class of the
source excludes the character required right after it (so greedy matching
cannot backtrack into a different capture).  Asynchronous remote calls are
modelled by an environment record carrying the outcome of each GraphQL call,
and runtime errors of the JavaScript dynamic semantics (TypeError on member
access of undefined or null, ReferenceError on an undeclared identifier) are
modelled as error values that end the run, exactly where the source would
throw.  The logging collaborator (debug) affects no control flow and is
dropped, except that evaluation of its template-literal arguments is kept
where it raises: the template at source line 424 reads the identifier
projectNodeId, which is not declared in the scope of triageIssues, so every
run that reaches that line throws a ReferenceError.
-/

namespace RepoGardening

/-! ## Character classes of the source regular expressions -/

/-- The character class of the JavaScript regex escape for whitespace,
    as matched by a single occurrence in the markers of the source. -/
def isJsWs (c : Char) : Bool :=
  c = ' ' || c = '\t' || c = '\n' || c = '\x0b' || c = '\x0c' || c = '\r' ||
  c = '\u00A0' || c = '\u1680' || ('\u2000' ≤ c && c ≤ '\u200A') ||
  c = '\u2028' || c = '\u2029' || c = '\u202F' || c = '\u205F' || c = '\u3000' ||
  c = '\uFEFF'

/-- The class [a-zA-Z ,] of the plugin capture (source line 97). -/
def pluginChar (c : Char) : Bool :=
  c.isAlpha || c = ' ' || c = ','

/-- The class [a-zA-Z ,-] of the platform capture (source line 116). -/
def platformChar (c : Char) : Bool :=
  c.isAlpha || c = ' ' || c = ',' || c = '-'

/-- The dot of a regex without the dotAll flag: any character except the four
    line terminators. -/
def dotChar (c : Char) : Bool :=
  !(c = '\n' || c = '\r' || c = '\u2028' || c = '\u2029')

/-! ## Scanning primitives -/

/-- Match a literal at the head of the input, returning the rest. -/
def dropLit : List Char → List Char → Option (List Char)
  | [], l => some l
  | _ :: _, [] => none
  | c :: cs, d :: ds => if c = d then dropLit cs ds else none

/-- One token of a regex marker: a literal run, or one whitespace-class char. -/
inductive Tok where
  | lit : List Char → Tok
  | ws : Tok
deriving DecidableEq, Repr

/-- Match one token at the head of the input. -/
def dropTok : Tok → List Char → Option (List Char)
  | Tok.lit w, l => dropLit w l
  | Tok.ws, [] => none
  | Tok.ws, c :: cs => if isJsWs c then some cs else none

/-- Match a sequence of tokens at the head of the input. -/
def dropToks : List Tok → List Char → Option (List Char)
  | [], l => some l
  | t :: ts, l =>
    match dropTok t l with
    | none => none
    | some m => dropToks ts m

/-- Try a pattern at every position from left to right: the leftmost-match
    search of RegExp.exec. -/
def scanList {α : Type} (tryAt : List Char → Option α) : List Char → Option α
  | [] => tryAt []
  | c :: rest =>
    match tryAt (c :: rest) with
    | some x => some x
    | none => scanList tryAt rest

/-! ## ContentParser (source lines 96-163) -/

/-- Marker of the plugin regex (source line 97) up to the capture. -/
def pluginMarker : List Tok :=
  [Tok.lit "###".data, Tok.ws, Tok.lit "Impacted".data, Tok.ws, Tok.lit "plugin\n\n".data]

/-- Marker of the platform regex (source line 116) up to the capture. -/
def platformMarker : List Tok :=
  [Tok.lit "###".data, Tok.ws, Tok.lit "Platform".data, Tok.ws, Tok.lit "(Simple".data,
   Tok.ws, Tok.lit "and/or Atomic)\n\n".data]

/-- First part of the priority regex (source line 140), up to the impact capture. -/
def priorityMarkerA : List Tok :=
  [Tok.lit "###".data, Tok.ws, Tok.lit "Impact\n\n".data]

/-- Middle part of the priority regex, between the two captures. -/
def priorityMarkerB : List Tok :=
  [Tok.lit "\n\n###".data, Tok.ws, Tok.lit "Available".data, Tok.ws,
   Tok.lit "workarounds?\n\n".data]

/-- The plugin regex tried at one position: marker, greedy [a-zA-Z ,] capture,
    then a blank line.  The capture class excludes newline, so the greedy
    capture is exactly the maximal class run. -/
def tryPluginsAt (l : List Char) : Option (List Char) :=
  match dropToks pluginMarker l with
  | none => none
  | some r =>
    match dropLit "\n\n".data (r.span pluginChar).2 with
    | none => none
    | some _ => some (r.span pluginChar).1

/-- The platform regex tried at one position. -/
def tryPlatformsAt (l : List Char) : Option (List Char) :=
  match dropToks platformMarker l with
  | none => none
  | some r =>
    match dropLit "\n\n".data (r.span platformChar).2 with
    | none => none
    | some _ => some (r.span platformChar).1

/-- The priority regex tried at one position: impact line, middle marker,
    workaround line, then a newline. -/
def tryPriorityAt (l : List Char) : Option (List Char × List Char) :=
  match dropToks priorityMarkerA l with
  | none => none
  | some r1 =>
    match dropToks priorityMarkerB (r1.span dotChar).2 with
    | none => none
    | some r3 =>
      match dropLit "\n".data (r3.span dotChar).2 with
      | none => none
      | some _ => some ((r1.span dotChar).1, (r3.span dotChar).1)

/-- JavaScript String.prototype.split on the literal separator of the source,
    a comma followed by a space: leftmost, non-overlapping. -/
def splitCommaSpace : List Char → List (List Char)
  | ',' :: ' ' :: rest => [] :: splitCommaSpace rest
  | c :: rest =>
    match splitCommaSpace rest with
    | [] => [[c]]
    | piece :: pieces => (c :: piece) :: pieces
  | [] => [[]]

/-- JavaScript String.prototype.trim: strip whitespace from both ends. -/
def jsTrim (l : List Char) : List Char :=
  ((l.dropWhile isJsWs).reverse.dropWhile isJsWs).reverse

/-- findPlugins (source lines 96-107): first match of the plugin regex,
    split on comma-space, drop entries that trim to empty; no match gives []. -/
def findPlugins (body : String) : List String :=
  match scanList tryPluginsAt body.data with
  | some cap =>
    ((splitCommaSpace cap).filter (fun v => jsTrim v ≠ [])).map (fun v => String.mk v)
  | none => []

/-- findPlatforms (source lines 115-128): like findPlugins but also drops the
    literal entry Self-hosted. -/
def findPlatforms (body : String) : List String :=
  match scanList tryPlatformsAt body.data with
  | some cap =>
    ((splitCommaSpace cap).filter
        (fun v => v ≠ "Self-hosted".data && jsTrim v ≠ [])).map (fun v => String.mk v)
  | none => []

/-- The decision chain of findPriority (source lines 149-158) applied to the
    two captured answers. -/
def findPriorityCore (impact blocking : String) : String :=
  if blocking = "No and the platform is unusable" then
    if impact = "One" then "High" else "BLOCKER"
  else if blocking = "No but the platform is still usable" then
    "High"
  else if blocking = "Yes, difficult to implement" then
    if impact = "All" then "High" else "Normal"
  else if blocking ≠ "" ∧ blocking ≠ "_No response_" then
    if impact = "All" ∨ impact = "Most (> 50%)" then "Normal" else "Low"
  else
    "TBD"

/-- findPriority (source lines 137-163): the loop body returns on its first
    iteration, so only the first match matters; no match gives TBD. -/
def findPriority (body : String) : String :=
  match scanList tryPriorityAt body.data with
  | some ib => findPriorityCore (String.mk ib.1) (String.mk ib.2)
  | none => "TBD"

/-! ## LabelState (source lines 21-88) -/

/-- Executable model of List.isPrefixOf used throughout the label checks. -/
def startsWithChars : List Char → List Char → Bool
  | [], _ => true
  | _ :: _, [] => false
  | c :: cs, d :: ds => (c = d) && startsWithChars cs ds

/-- The test of the anchored priority-label regex of source lines 23 and 27:
    the bracketed tag at the start, then a greedy dot run up to the end
    anchor.  Without the multiline flag the end anchor matches only at the
    very end of the input, so the name matches exactly when everything after
    the tag is dot-matchable, that is, free of line terminators. -/
def matchesPriRegex (s : String) : Bool :=
  startsWithChars "[Pri]".data s.data && (s.data.drop 5).all dotChar

/-- hasPriorityLabels (source lines 21-28): current labels, plus the event
    label when the action is labeled and the name is truthy and matches,
    filtered down to priority labels. -/
def hasPriorityLabels (labels : List String) (action : String)
    (eventLabelName : Option String) : List String :=
  (match eventLabelName with
   | some nm =>
     if action = "labeled" ∧ nm ≠ "" ∧ matchesPriRegex nm then labels ++ [nm] else labels
   | none => labels).filter (fun l => matchesPriRegex l)

/-- isBug (source lines 77-88): an existing Type Bug label, or the event
    adding one. -/
def isBug (labels : List String) (action : String)
    (eventLabelName : Option String) : Bool :=
  if labels.contains "[Type] Bug" then true
  else
    match eventLabelName with
    | some nm => action = "labeled" && nm ≠ "" && nm = "[Type] Bug"
    | none => false

/-! ## ProjectBoardClient data model -/

/-- Dynamic errors of the JavaScript semantics, plus a rejected remote call. -/
inductive JsError where
  | typeError (msg : String)
  | referenceError (msg : String)
  | rejected (msg : String)
deriving DecidableEq, Repr

/-- One option of a single-select board field. -/
structure FieldOptionNode where
  id : String
  name : String
deriving DecidableEq, Repr

/-- One field node of the board schema query; a plain field fragment carries
    no options member, hence the Option. -/
structure FieldNode where
  id : String
  name : String
  options : Option (List FieldOptionNode)
deriving DecidableEq, Repr

/-- The projectV2 object of the board schema query. -/
structure ProjectV2Node where
  id : String
  fields : List FieldNode
deriving DecidableEq, Repr

/-- The organization object of the board schema query; projectV2 is null when
    the project number does not resolve. -/
structure OrgNode where
  projectV2 : Option ProjectV2Node
deriving DecidableEq, Repr

/-- Result shape of the getProject query (source lines 284-312). -/
structure SchemaResult where
  organization : Option OrgNode
deriving DecidableEq, Repr

/-- The projectV2 object of the getProjectNumber query (source lines 382-397). -/
structure ProjV2Ref where
  id : String
  number : Nat
deriving DecidableEq, Repr

/-- The node object of the getProjectNumber query. -/
structure IssueNode where
  projectV2 : Option ProjV2Ref
deriving DecidableEq, Repr

/-- Result shape of the getProjectNumber query. -/
structure InProjectResult where
  node : Option IssueNode
deriving DecidableEq, Repr

/-- The node object of the getIssueProjectDetails query (source lines 213-239);
    only read inside logging, so the exact item list shape is irrelevant. -/
structure ItemsNode where
  projectItems : List String
deriving DecidableEq, Repr

/-- Result shape of the getIssueProjectDetails query. -/
structure ItemQueryResult where
  node : Option ItemsNode
deriving DecidableEq, Repr

/-- The projectInfo object built by getProjectDetails (source lines 272-338);
    members are optional because they are only set conditionally, and the
    invalid-link path returns an object with none of them. -/
structure ProjectInfo where
  ownerType : Option String
  ownerName : Option String
  projectNumber : Option Nat
  projectNodeId : Option String
  priority : Option FieldNode
deriving DecidableEq, Repr

/-- The empty object returned on an invalid board link (source line 266). -/
def ProjectInfo.empty : ProjectInfo :=
  ⟨none, none, none, none, none⟩

/-- Observable side effects of a run: the failure report, each GraphQL call,
    and each label-add call. -/
inductive Effect where
  | setFailed (msg : String)
  | graphqlQuery (name : String)
  | graphqlMutation (fieldId itemId projectId optionId : String)
  | addLabels (labels : List String)
deriving DecidableEq, Repr

/-- Digits to a number, as parseInt with radix ten on a digit-only capture. -/
def digitsToNat (ds : List Char) : Nat :=
  ds.foldl (fun acc c => 10 * acc + (c.toNat - 48)) 0

/-- The anchored board-link regex of source line 262: optional https scheme,
    the github host, orgs or users, an owner segment, then /projects/ and a
    number; trailing text is allowed.  Returns owner type, owner name and
    project number. -/
def parseProjectLink (link : String) : Option (String × String × Nat) :=
  let l0 := link.data
  let l1 :=
    match dropLit "https://".data l0 with
    | some r => r
    | none => l0
  match dropLit "github.com/".data l1 with
  | none => none
  | some l2 =>
    let pick :=
      match dropLit "orgs/".data l2 with
      | some r => some ("orgs", r)
      | none =>
        match dropLit "users/".data l2 with
        | some r => some ("users", r)
        | none => none
    match pick with
    | none => none
    | some (ownerType, l3) =>
      match l3.span (fun c => c ≠ '/') with
      | (ownerName, l4) =>
        if ownerName = [] then none
        else
          match dropLit "/projects/".data l4 with
          | none => none
          | some l5 =>
            match l5.span Char.isDigit with
            | (digits, _) =>
              if digits = [] then none
              else some (ownerType, String.mk ownerName, digitsToNat digits)

/-- getProjectDetails (source lines 260-339).  An invalid link logs and
    returns the empty object without any remote call.  On a parsed link the
    schema query is issued; a rejected call propagates.  Reading the project
    id walks organization with optional chaining but projectV2 without, so a
    null projectV2 raises a TypeError at line 315, and a missing organization
    raises a TypeError inside the logging template at line 324.  The id is
    only stored when truthy, and the priority member is the first field named
    Priority, when present. -/
def getProjectDetails (projectBoardLink : String)
    (schemaResult : Except JsError SchemaResult) :
    List Effect × Except JsError ProjectInfo :=
  match parseProjectLink projectBoardLink with
  | none => ([], Except.ok ProjectInfo.empty)
  | some (ownerType, ownerName, projectNumber) =>
    match schemaResult with
    | Except.error e => ([Effect.graphqlQuery "getProject"], Except.error e)
    | Except.ok res =>
      match res.organization with
      | none =>
        ([Effect.graphqlQuery "getProject"],
         Except.error (JsError.typeError
           "Cannot read properties of undefined (reading projectV2)"))
      | some org =>
        match org.projectV2 with
        | none =>
          ([Effect.graphqlQuery "getProject"],
           Except.error (JsError.typeError "Cannot read properties of null (reading id)"))
        | some pv2 =>
          ([Effect.graphqlQuery "getProject"],
           Except.ok
             ⟨some (if ownerType = "orgs" then "organization" else "user"),
              some ownerName,
              some projectNumber,
              (if pv2.id = "" then none else some pv2.id),
              pv2.fields.find? (fun f => f.name = "Priority")⟩)

/-- The hardcoded project-item node id returned by getItemNodeId (source
    line 250). -/
def hardcodedItemNodeId : String :=
  "PVTI_lADOCGvWfc4AUwHEzgI4tDo"

/-- getItemNodeId (source lines 211-251): issues its query, logs through safe
    optional chains, and returns the hardcoded item node id whatever the
    query returned. -/
def getItemNodeId (queryResult : Except JsError ItemQueryResult) :
    List Effect × Except JsError String :=
  match queryResult with
  | Except.error e => ([Effect.graphqlQuery "getIssueProjectDetails"], Except.error e)
  | Except.ok _ =>
    ([Effect.graphqlQuery "getIssueProjectDetails"], Except.ok hardcodedItemNodeId)

/-- updateProjectField (source lines 174-202): issues the single-select
    mutation and returns true; a rejected call propagates after the call was
    made.  The function contains no handler. -/
def updateProjectField (fieldId itemId projectId optionId : String)
    (mutationResult : Except JsError Unit) : List Effect × Except JsError Bool :=
  match mutationResult with
  | Except.error e =>
    ([Effect.graphqlMutation fieldId itemId projectId optionId], Except.error e)
  | Except.ok _ =>
    ([Effect.graphqlMutation fieldId itemId projectId optionId], Except.ok true)

/-- The hardcoded priority text of source line 421. -/
def priorityText : String :=
  "Low"

/-- The option lookup of source line 428: member access id on the result of
    find, which is a TypeError when no option has the wanted name. -/
def priorityOptionLookup (options : List FieldOptionNode) (text : String) :
    Except JsError String :=
  match options.find? (fun o => o.name = text) with
  | none => Except.error (JsError.typeError "Cannot read properties of undefined (reading id)")
  | some o => Except.ok o.id

/-- The optional chain of source line 398: node is walked optionally, but id
    is read from projectV2 unconditionally, so a null projectV2 raises. -/
def jsIssueItemId (node : Option IssueNode) : Except JsError (Option String) :=
  match node with
  | none => Except.ok none
  | some n =>
    match n.projectV2 with
    | none => Except.error (JsError.typeError "Cannot read properties of null (reading id)")
    | some p => Except.ok (some p.id)

/-- Configuration inputs read at run start (source lines 359 and 372); a
    missing input reads as the empty string. -/
structure Config where
  project_automation_token : String
  project_board : String
deriving DecidableEq, Repr

instance {ε α : Type} [DecidableEq ε] [DecidableEq α] : DecidableEq (Except ε α) := fun a b =>
  match a, b with
  | Except.error x, Except.error y => decidable_of_iff (x = y) (by simp)
  | Except.error _, Except.ok _ => isFalse (by simp)
  | Except.ok _, Except.error _ => isFalse (by simp)
  | Except.ok x, Except.ok y => decidable_of_iff (x = y) (by simp)

/-- Outcomes of the remote calls a run can issue, in program order. -/
structure RemoteEnv where
  schemaResult : Except JsError SchemaResult
  inProjectResult : Except JsError InProjectResult
  itemQueryResult : Except JsError ItemQueryResult
  mutationResult : Except JsError Unit
deriving DecidableEq, Repr

/-- The issue event payload members destructured at source lines 352-355. -/
structure IssueEvent where
  action : String
  number : Nat
  body : String
  node_id : String
  eventLabelName : Option String
  ownerLogin : String
  repoName : String
deriving DecidableEq, Repr

/-- triageIssues (source lines 351-516).  Missing token or board link report
    failure and return before any remote call.  Otherwise the run walks the
    board chain in order: schema fetch, in-project query, the item-id chain
    of line 398, the getIssueProjectDetails query; any raised error ends the
    run there.  Reaching line 415 destructures the priority member of
    projectInfo, a TypeError when it is absent (as after an invalid link).
    Past that, the logging template of line 424 reads the undeclared
    identifier projectNodeId, so every remaining path raises a
    ReferenceError: the mutation of line 436 and the label application of
    lines 447-515 are unreachable in the source as written; the label logic
    is modelled separately below as labelPhase. -/
def triageIssues (cfg : Config) (env : RemoteEnv) (_ev : IssueEvent) :
    List Effect × Except JsError Unit :=
  if cfg.project_automation_token = "" then
    ([Effect.setFailed
        "triage-issues: Input project_automation_token is required but missing. Aborting."],
     Except.ok ())
  else if cfg.project_board = "" then
    ([Effect.setFailed
        "triage-issues: No project board link provided. Cannot triage to a board."],
     Except.ok ())
  else
    match getProjectDetails cfg.project_board env.schemaResult with
    | (fx1, Except.error e) => (fx1, Except.error e)
    | (fx1, Except.ok projectInfo) =>
      match env.inProjectResult with
      | Except.error e => (fx1 ++ [Effect.graphqlQuery "getProjectNumber"], Except.error e)
      | Except.ok inProj =>
        match jsIssueItemId inProj.node with
        | Except.error e =>
          (fx1 ++ [Effect.graphqlQuery "getProjectNumber"], Except.error e)
        | Except.ok _itemId =>
          match getItemNodeId env.itemQueryResult with
          | (fx2, Except.error e) =>
            (fx1 ++ [Effect.graphqlQuery "getProjectNumber"] ++ fx2, Except.error e)
          | (fx2, Except.ok _itemNodeId) =>
            match projectInfo.priority with
            | none =>
              (fx1 ++ [Effect.graphqlQuery "getProjectNumber"] ++ fx2,
               Except.error (JsError.typeError
                 "Cannot destructure property id of projectInfo.priority as it is undefined"))
            | some _priorityField =>
              (fx1 ++ [Effect.graphqlQuery "getProjectNumber"] ++ fx2,
               Except.error (JsError.referenceError "projectNodeId is not defined"))

/-- The label work of source lines 447-515, given the freshly listed labels:
    compute the priority labels, the content priority and the bug check, then
    on opened or reopened add plugin labels, platform labels, and a priority
    label only for a bug with no existing priority label. -/
def labelPhase (action : String) (body : String) (labels : List String)
    (eventLabelName : Option String) : List Effect :=
  if action = "opened" ∨ action = "reopened" then
    (if findPlugins body ≠ [] then
       [Effect.addLabels ((findPlugins body).map (fun plugin => "[Plugin] " ++ plugin))]
     else []) ++
    (if findPlatforms body ≠ [] then
       [Effect.addLabels ((findPlatforms body).map (fun platform => "[Platform] " ++ platform))]
     else []) ++
    (if hasPriorityLabels labels action eventLabelName = [] ∧
        isBug labels action eventLabelName then
       [Effect.addLabels ["[Pri] " ++ findPriority body]]
     else [])
  else []

/-! ## Specification-side statement of the priority decision table -/

/-- The priority tiers named by the specification. -/
inductive Tier where
  | blocker
  | high
  | normal
  | low
  | tbd
deriving DecidableEq, Repr

/-- The label text of each tier. -/
def tierName : Tier → String
  | Tier.blocker => "BLOCKER"
  | Tier.high => "High"
  | Tier.normal => "Normal"
  | Tier.low => "Low"
  | Tier.tbd => "TBD"

/-- The decision table exactly as the specification words it, written over the
    two captured answers: first-match order, with the intentional inversion
    that no workaround with impact One is High while every other impact is
    BLOCKER; a non-empty answer other than the no-response placeholder is
    Normal for the two broad impacts and Low otherwise; everything else is
    TBD. -/
def specTier (impact workaround : String) : Tier :=
  if workaround = "No and the platform is unusable" then
    if impact = "One" then Tier.high else Tier.blocker
  else if workaround = "No but the platform is still usable" then
    Tier.high
  else if workaround = "Yes, difficult to implement" then
    if impact = "All" then Tier.high else Tier.normal
  else if workaround ≠ "" ∧ workaround ≠ "_No response_" then
    if impact ∈ ["All", "Most (> 50%)"] then Tier.normal else Tier.low
  else
    Tier.tbd

/-- True unless the effect is a board mutation aimed at an item other than
    the hardcoded one. -/
def mutationTargetsItem (e : Effect) : Bool :=
  match e with
  | Effect.graphqlMutation _ itemId _ _ => itemId = hardcodedItemNodeId
  | _ => true

/-! ## Concrete runs used by the refutation and witness theorems -/

/-- A bug-report body whose computed priority is BLOCKER. -/
def bodyBlocker : String :=
  "### Impact\n\nAll\n\n### Available workarounds?\n\nNo and the platform is unusable\n"

/-- A configuration with a well-formed organization board link. -/
def cfgValid : Config :=
  ⟨"token", "https://github.com/orgs/acme/projects/11"⟩

/-- A healthy board schema whose Priority field offers every tier. -/
def envAllGood : RemoteEnv :=
  ⟨Except.ok ⟨some ⟨some ⟨"PVT_board",
      [⟨"PVTSSF_priority", "Priority",
        some [⟨"opt_blocker", "BLOCKER"⟩, ⟨"opt_high", "High"⟩, ⟨"opt_normal", "Normal"⟩,
              ⟨"opt_low", "Low"⟩, ⟨"opt_tbd", "TBD"⟩]⟩]⟩⟩⟩,
   Except.ok ⟨some ⟨some ⟨"PVT_item", 11⟩⟩⟩,
   Except.ok ⟨some ⟨["item1"]⟩⟩,
   Except.ok ()⟩

/-- An opened event carrying the BLOCKER body. -/
def evBlocker : IssueEvent :=
  ⟨"opened", 1, bodyBlocker, "I_1", none, "acme", "repo"⟩

/-- A board link without the orgs or users segment. -/
def cfgBadLink : Config :=
  ⟨"token", "https://github.com/acme/projects/11"⟩

/-- A benign environment for the bad-link run. -/
def envBenign : RemoteEnv :=
  ⟨Except.ok ⟨none⟩, Except.ok ⟨none⟩, Except.ok ⟨none⟩, Except.ok ()⟩

/-- An opened event whose body names two impacted plugins. -/
def evPlugins : IssueEvent :=
  ⟨"opened", 3, "### Impacted plugin\n\nAlpha, Beta\n\n", "I_3", none, "acme", "repo"⟩

/-- A healthy schema answer reused by the failure-injection runs. -/
def schemaOk : Except JsError SchemaResult :=
  Except.ok ⟨some ⟨some ⟨"PVT_board",
    [⟨"PVTSSF_priority", "Priority", some [⟨"opt_low", "Low"⟩]⟩]⟩⟩⟩

/-- The schema fetch itself is rejected. -/
def envSchemaDown : RemoteEnv :=
  ⟨Except.error (JsError.rejected "schema fetch failed"),
   Except.ok ⟨none⟩, Except.ok ⟨none⟩, Except.ok ()⟩

/-- The in-project lookup is rejected. -/
def envLookupDown : RemoteEnv :=
  ⟨schemaOk, Except.error (JsError.rejected "lookup failed"), Except.ok ⟨none⟩, Except.ok ()⟩

/-- The in-project lookup answers with a null projectV2 member. -/
def envItemNull : RemoteEnv :=
  ⟨schemaOk, Except.ok ⟨some ⟨none⟩⟩, Except.ok ⟨none⟩, Except.ok ()⟩

/-- A board whose Priority field offers no option named Low. -/
def envNoLowOption : RemoteEnv :=
  ⟨Except.ok ⟨some ⟨some ⟨"PVT_board",
      [⟨"PVTSSF_priority", "Priority", some [⟨"opt_normal", "Normal"⟩]⟩]⟩⟩⟩,
   Except.ok ⟨some ⟨some ⟨"PVT_item", 11⟩⟩⟩,
   Except.ok ⟨some ⟨["item1"]⟩⟩,
   Except.ok ()⟩

/-- An opened event with an empty body. -/
def evEmptyBody : IssueEvent :=
  ⟨"opened", 6, "", "I_6", none, "acme", "repo"⟩

/-- A configuration whose automation token is missing. -/
def cfgNoToken : Config :=
  ⟨"", "https://github.com/orgs/acme/projects/11"⟩

/-- An opened event for the missing-token run. -/
def evPlain : IssueEvent :=
  ⟨"opened", 7, "", "I_7", none, "acme", "repo"⟩

/-- A platform section listing Self-hosted between two real platforms. -/
def bodyPlatforms : String :=
  "### Platform (Simple and/or Atomic)\n\nSimple, Self-hosted, Atomic\n\n"

/-- The platform capture of that body. -/
def capPlatforms : List Char :=
  "Simple, Self-hosted, Atomic".data

/-! ## Lemmas about the scanning primitives -/

theorem dropLit_eq : ∀ {w l r : List Char}, dropLit w l = some r → l = w ++ r := by
  intro w
  induction w with
  | nil =>
    intro l r h
    simp only [dropLit, Option.some.injEq] at h
    simp [h]
  | cons c cs ih =>
    intro l r h
    cases l with
    | nil => simp [dropLit] at h
    | cons d ds =>
      simp only [dropLit] at h
      by_cases hc : c = d
      · rw [if_pos hc] at h
        subst hc
        simp [ih h]
      · rw [if_neg hc] at h
        exact absurd h (by simp)

theorem dropTok_sfx {t : Tok} {l r : List Char} (h : dropTok t l = some r) : r <:+ l := by
  cases t with
  | lit w => exact ⟨w, (dropLit_eq h).symm⟩
  | ws =>
    cases l with
    | nil => simp [dropTok] at h
    | cons c cs =>
      simp only [dropTok] at h
      by_cases hw : isJsWs c = true
      · rw [if_pos hw] at h
        obtain rfl : cs = r := by simpa using h
        exact ⟨[c], rfl⟩
      · rw [if_neg hw] at h
        exact absurd h (by simp)

theorem dropToks_sfx : ∀ {ts : List Tok} {l r : List Char}, dropToks ts l = some r → r <:+ l := by
  intro ts
  induction ts with
  | nil =>
    intro l r h
    obtain rfl : l = r := by simpa [dropToks] using h
    exact List.suffix_refl _
  | cons t ts ih =>
    intro l r h
    unfold dropToks at h
    cases hm : dropTok t l with
    | none => rw [hm] at h; exact absurd h (by simp)
    | some m =>
      rw [hm] at h
      exact (ih h).trans (dropTok_sfx hm)

theorem dropToks_lit_occurs : ∀ {ts : List Tok} {l r w : List Char},
    dropToks ts l = some r → Tok.lit w ∈ ts → w <:+: l := by
  intro ts
  induction ts with
  | nil => intro l r w _ hw; simp at hw
  | cons t ts ih =>
    intro l r w h hw
    unfold dropToks at h
    cases hm : dropTok t l with
    | none => rw [hm] at h; exact absurd h (by simp)
    | some m =>
      rw [hm] at h
      rcases List.mem_cons.mp hw with hhd | htl
      · have hlit : dropLit w l = some m := by rw [← hhd] at hm; exact hm
        exact ⟨[], m, by simp [(dropLit_eq hlit).symm]⟩
      · exact (ih h htl).trans (dropTok_sfx hm).isInfix

theorem scanList_occurs {α : Type} {tryAt : List Char → Option α} {w : List Char}
    (htry : ∀ l x, tryAt l = some x → w <:+: l) :
    ∀ l x, scanList tryAt l = some x → w <:+: l := by
  intro l
  induction l with
  | nil => intro x h; exact htry [] x (by simpa [scanList] using h)
  | cons c rest ih =>
    intro x h
    unfold scanList at h
    cases ht : tryAt (c :: rest) with
    | some y => exact htry _ _ ht
    | none =>
      rw [ht] at h
      exact (ih x h).trans (List.suffix_cons c rest).isInfix

theorem tryPluginsAt_occurs {l cap : List Char} (h : tryPluginsAt l = some cap) :
    "Impacted".data <:+: l := by
  unfold tryPluginsAt at h
  cases hd : dropToks pluginMarker l with
  | none => rw [hd] at h; exact absurd h (by simp)
  | some r => exact dropToks_lit_occurs hd (by decide)

theorem tryPlatformsAt_occurs {l cap : List Char} (h : tryPlatformsAt l = some cap) :
    "Platform".data <:+: l := by
  unfold tryPlatformsAt at h
  cases hd : dropToks platformMarker l with
  | none => rw [hd] at h; exact absurd h (by simp)
  | some r => exact dropToks_lit_occurs hd (by decide)

theorem tryPriorityAt_occurs {l : List Char} {x : List Char × List Char}
    (h : tryPriorityAt l = some x) : "Impact".data <:+: l := by
  unfold tryPriorityAt at h
  cases hd : dropToks priorityMarkerA l with
  | none => rw [hd] at h; exact absurd h (by simp)
  | some r =>
    have h8 : "Impact\n\n".data <:+: l := dropToks_lit_occurs hd (by decide)
    have hp : "Impact".data <+: "Impact\n\n".data := ⟨"\n\n".data, by decide⟩
    exact hp.isInfix.trans h8

theorem scanPlugins_none {l : List Char} (h : ¬ "Impacted".data <:+: l) :
    scanList tryPluginsAt l = none := by
  cases hs : scanList tryPluginsAt l with
  | none => rfl
  | some c =>
    exact absurd (scanList_occurs (fun l2 x hx => tryPluginsAt_occurs hx) l c hs) h

theorem scanPlatforms_none {l : List Char} (h : ¬ "Platform".data <:+: l) :
    scanList tryPlatformsAt l = none := by
  cases hs : scanList tryPlatformsAt l with
  | none => rfl
  | some c =>
    exact absurd (scanList_occurs (fun l2 x hx => tryPlatformsAt_occurs hx) l c hs) h

theorem scanPriority_none {l : List Char} (h : ¬ "Impact".data <:+: l) :
    scanList tryPriorityAt l = none := by
  cases hs : scanList tryPriorityAt l with
  | none => rfl
  | some c =>
    exact absurd (scanList_occurs (fun l2 x hx => tryPriorityAt_occurs hx) l c hs) h

/-! ## Lemmas about the label checks -/

theorem startsWithChars_append_left : ∀ (a b l : List Char),
    startsWithChars (a ++ b) l = true → startsWithChars a l = true := by
  intro a
  induction a with
  | nil => intro b l _; rfl
  | cons c cs ih =>
    intro b l h
    cases l with
    | nil => simp [startsWithChars] at h
    | cons d ds =>
      simp only [List.cons_append, startsWithChars, Bool.and_eq_true] at h ⊢
      exact ⟨h.1, ih b ds h.2⟩

theorem matchesPriRegex_of_priPrefix (l : String)
    (hpre : startsWithChars "[Pri] ".data l.data = true)
    (hnl : ∀ c ∈ l.data, dotChar c = true) :
    matchesPriRegex l = true := by
  unfold matchesPriRegex
  rw [Bool.and_eq_true]
  refine ⟨startsWithChars_append_left "[Pri]".data " ".data l.data hpre, ?_⟩
  rw [List.all_eq_true]
  intro c hc
  exact hnl c (List.drop_subset 5 l.data hc)

theorem priPrefix_pluginLabel (p : String) :
    startsWithChars "[Pri]".data ("[Plugin] " ++ p).data = false := rfl

theorem priPrefix_platformLabel (p : String) :
    startsWithChars "[Pri]".data ("[Platform] " ++ p).data = false := rfl

theorem priPrefix_priLabel (p : String) :
    startsWithChars "[Pri]".data ("[Pri] " ++ p).data = true := rfl

/-! ## The decision chain agrees with the decision table -/

theorem findPriorityCore_eq_spec (impact blocking : String) :
    findPriorityCore impact blocking = tierName (specTier impact blocking) := by
  unfold findPriorityCore specTier
  simp only [List.mem_cons, List.mem_singleton, List.not_mem_nil, or_false]
  split_ifs <;> rfl

/-! ## The effect trace of a run holds only failure reports and queries -/

theorem getProjectDetails_effects (link : String) (sr : Except JsError SchemaResult) :
    ∀ e ∈ (getProjectDetails link sr).1, ∃ q, e = Effect.graphqlQuery q := by
  intro e he
  unfold getProjectDetails at he
  split at he
  · simp at he
  · split at he
    · exact ⟨"getProject", by simpa using he⟩
    · split at he
      · exact ⟨"getProject", by simpa using he⟩
      · split at he
        · exact ⟨"getProject", by simpa using he⟩
        · exact ⟨"getProject", by simpa using he⟩

theorem getItemNodeId_effects (qr : Except JsError ItemQueryResult) :
    ∀ e ∈ (getItemNodeId qr).1, ∃ q, e = Effect.graphqlQuery q := by
  intro e he
  unfold getItemNodeId at he
  cases qr with
  | error e2 => exact ⟨"getIssueProjectDetails", by simpa using he⟩
  | ok r => exact ⟨"getIssueProjectDetails", by simpa using he⟩

theorem triage_trace_shape (cfg : Config) (env : RemoteEnv) (ev : IssueEvent) :
    ∀ e ∈ (triageIssues cfg env ev).1,
      (∃ m, e = Effect.setFailed m) ∨ (∃ q, e = Effect.graphqlQuery q) := by
  intro e he
  have hgpd := getProjectDetails_effects cfg.project_board env.schemaResult
  have hgin := getItemNodeId_effects env.itemQueryResult
  unfold triageIssues at he
  split at he
  · exact Or.inl ⟨_, by simpa using he⟩
  · split at he
    · exact Or.inl ⟨_, by simpa using he⟩
    · split at he
      · next fx1 e2 heq =>
        exact Or.inr (hgpd e (by rw [heq]; exact he))
      · next fx1 pinfo heq =>
        have hfx1 : ∀ x ∈ fx1, ∃ q, x = Effect.graphqlQuery q := by
          intro x hx
          exact hgpd x (by rw [heq]; exact hx)
        split at he
        · rcases List.mem_append.mp he with hA | hB
          · exact Or.inr (hfx1 e hA)
          · exact Or.inr ⟨_, by simpa using hB⟩
        · split at he
          · rcases List.mem_append.mp he with hA | hB
            · exact Or.inr (hfx1 e hA)
            · exact Or.inr ⟨_, by simpa using hB⟩
          · split at he
            · next fx2 e2 hgi =>
              have hfx2 : ∀ x ∈ fx2, ∃ q, x = Effect.graphqlQuery q := by
                intro x hx
                exact hgin x (by rw [hgi]; exact hx)
              rcases List.mem_append.mp he with hA | hB
              rcases List.mem_append.mp hA with hA1 | hA2
              · exact Or.inr (hfx1 e hA1)
              · exact Or.inr ⟨_, by simpa using hA2⟩
              · exact Or.inr (hfx2 e hB)
            · next fx2 nid hgi =>
              have hfx2 : ∀ x ∈ fx2, ∃ q, x = Effect.graphqlQuery q := by
                intro x hx
                exact hgin x (by rw [hgi]; exact hx)
              split at he
              · rcases List.mem_append.mp he with hA | hB
                rcases List.mem_append.mp hA with hA1 | hA2
                · exact Or.inr (hfx1 e hA1)
                · exact Or.inr ⟨_, by simpa using hA2⟩
                · exact Or.inr (hfx2 e hB)
              · rcases List.mem_append.mp he with hA | hB
                rcases List.mem_append.mp hA with hA1 | hA2
                · exact Or.inr (hfx1 e hA1)
                · exact Or.inr ⟨_, by simpa using hA2⟩
                · exact Or.inr (hfx2 e hB)

/-! ## Claim theorems -/

/-- C1: the claim says the single-select option written to the Priority field
    equals the tier computed from the issue body.  The code contradicts it:
    the text that would be written is the hardcoded Low of line 421, and in
    fact no mutation is ever issued, because with a fully valid configuration,
    schema and body whose computed tier is BLOCKER the run raises a
    ReferenceError on the undeclared projectNodeId at line 424 before ever
    calling updateProjectField: the trace holds the three reads and no
    mutation. -/
theorem board_mutation_never_receives_computed_priority :
    findPriority bodyBlocker = "BLOCKER" ∧
    priorityText = "Low" ∧
    triageIssues cfgValid envAllGood evBlocker =
      ([Effect.graphqlQuery "getProject", Effect.graphqlQuery "getProjectNumber",
        Effect.graphqlQuery "getIssueProjectDetails"],
       Except.error (JsError.referenceError "projectNodeId is not defined")) :=
  ⟨rfl, rfl, rfl⟩

/-- C2: findPriority is total and deterministic (it is a function) and agrees
    with the fixed decision table of the specification on every body: the
    matched impact and workaround answers go through the table exactly, with
    the BLOCKER/High inversion, and any body without a matching section pair
    gives TBD. -/
theorem findPriority_decision_table (body : String) :
    findPriority body =
      (match scanList tryPriorityAt body.data with
       | some ib => tierName (specTier (String.mk ib.1) (String.mk ib.2))
       | none => "TBD") := by
  unfold findPriority
  cases scanList tryPriorityAt body.data with
  | none => rfl
  | some ib => exact findPriorityCore_eq_spec (String.mk ib.1) (String.mk ib.2)

/-- C3: the claim says that on a board link failing the pattern, board sync is
    skipped but label reconciliation still completes.  The code contradicts
    the second half: the link below has no orgs or users segment, so
    getProjectDetails returns the empty object, and destructuring its priority
    member at lines 415-420 raises a TypeError that aborts the run before any
    label call, even though the body would have produced two plugin labels. -/
theorem invalid_board_link_aborts_before_labels :
    parseProjectLink "https://github.com/acme/projects/11" = none ∧
    findPlugins evPlugins.body = ["Alpha", "Beta"] ∧
    triageIssues cfgBadLink envBenign evPlugins =
      ([Effect.graphqlQuery "getProjectNumber", Effect.graphqlQuery "getIssueProjectDetails"],
       Except.error (JsError.typeError
         "Cannot destructure property id of projectInfo.priority as it is undefined")) :=
  ⟨rfl, rfl, rfl⟩

/-- C4: the claim says every failure in the board-sync chain is caught and
    downgraded and labels are still applied.  The code has no handler: a
    rejected schema fetch, a rejected in-project lookup, and a null projectV2
    in the item-id chain each propagate out of triageIssues with no label
    call in the trace, and a rejected field mutation propagates out of
    updateProjectField the same way. -/
theorem board_sync_failure_propagates_uncaught :
    triageIssues cfgValid envSchemaDown evBlocker =
      ([Effect.graphqlQuery "getProject"],
       Except.error (JsError.rejected "schema fetch failed")) ∧
    triageIssues cfgValid envLookupDown evBlocker =
      ([Effect.graphqlQuery "getProject", Effect.graphqlQuery "getProjectNumber"],
       Except.error (JsError.rejected "lookup failed")) ∧
    triageIssues cfgValid envItemNull evBlocker =
      ([Effect.graphqlQuery "getProject", Effect.graphqlQuery "getProjectNumber"],
       Except.error (JsError.typeError "Cannot read properties of null (reading id)")) ∧
    updateProjectField "F" "I" "P" "O" (Except.error (JsError.rejected "mutation failed")) =
      ([Effect.graphqlMutation "F" "I" "P" "O"],
       Except.error (JsError.rejected "mutation failed")) :=
  ⟨rfl, rfl, rfl, rfl⟩

/-- C5: on an opened or reopened event over label names free of line
    terminators (as label names are), if the issue already carries a
    priority-prefixed label then the label work adds no further
    priority-prefixed label, and a priority-prefixed label is added only when
    the issue is a bug and carries no existing priority label: the
    at-most-one-priority-label invariant is preserved. -/
theorem priority_label_invariant (action body : String) (labels : List String)
    (evName : Option String)
    (hact : action = "opened" ∨ action = "reopened")
    (hnl : ∀ l ∈ labels, ∀ c ∈ l.data, dotChar c = true) :
    ((∃ l ∈ labels, startsWithChars "[Pri] ".data l.data = true) →
        ∀ ls, Effect.addLabels ls ∈ labelPhase action body labels evName →
          ∀ s ∈ ls, startsWithChars "[Pri]".data s.data = false)
    ∧ (∀ ls, Effect.addLabels ls ∈ labelPhase action body labels evName →
        (∃ s ∈ ls, startsWithChars "[Pri]".data s.data = true) →
        isBug labels action evName = true ∧
          hasPriorityLabels labels action evName = []) := by
  have hmem : ∀ ls, Effect.addLabels ls ∈ labelPhase action body labels evName →
      ls = (findPlugins body).map (fun plugin => "[Plugin] " ++ plugin) ∨
      ls = (findPlatforms body).map (fun platform => "[Platform] " ++ platform) ∨
      (ls = ["[Pri] " ++ findPriority body] ∧
        hasPriorityLabels labels action evName = [] ∧
        isBug labels action evName = true) := by
    intro ls hls
    unfold labelPhase at hls
    rw [if_pos hact] at hls
    rcases List.mem_append.mp hls with hAB | hC
    · rcases List.mem_append.mp hAB with hA | hB
      · by_cases hp : findPlugins body ≠ []
        · rw [if_pos hp] at hA
          have h2 : Effect.addLabels ls =
              Effect.addLabels ((findPlugins body).map (fun plugin => "[Plugin] " ++ plugin)) := by
            simpa using hA
          injection h2 with h3
          exact Or.inl h3
        · rw [if_neg hp] at hA
          simp at hA
      · by_cases hp : findPlatforms body ≠ []
        · rw [if_pos hp] at hB
          have h2 : Effect.addLabels ls =
              Effect.addLabels
                ((findPlatforms body).map (fun platform => "[Platform] " ++ platform)) := by
            simpa using hB
          injection h2 with h3
          exact Or.inr (Or.inl h3)
        · rw [if_neg hp] at hB
          simp at hB
    · by_cases hc : hasPriorityLabels labels action evName = [] ∧
          isBug labels action evName = true
      · rw [if_pos hc] at hC
        have h2 : Effect.addLabels ls = Effect.addLabels ["[Pri] " ++ findPriority body] := by
          simpa using hC
        injection h2 with h3
        exact Or.inr (Or.inr ⟨h3, hc.1, hc.2⟩)
      · rw [if_neg hc] at hC
        simp at hC
  constructor
  · intro hpri ls hls s hs
    obtain ⟨l, hl, hlpre⟩ := hpri
    have hm : matchesPriRegex l = true := matchesPriRegex_of_priPrefix l hlpre (hnl l hl)
    have hne : hasPriorityLabels labels action evName ≠ [] := by
      cases evName with
      | none =>
        have hred : hasPriorityLabels labels action none =
            labels.filter (fun l2 => matchesPriRegex l2) := rfl
        rw [hred]
        exact List.ne_nil_of_mem (List.mem_filter.mpr ⟨hl, hm⟩)
      | some nm =>
        have hred : hasPriorityLabels labels action (some nm) =
            (if action = "labeled" ∧ nm ≠ "" ∧ matchesPriRegex nm = true then labels ++ [nm]
             else labels).filter (fun l2 => matchesPriRegex l2) := rfl
        rw [hred]
        by_cases hcc : action = "labeled" ∧ nm ≠ "" ∧ matchesPriRegex nm = true
        · rw [if_pos hcc]
          exact List.ne_nil_of_mem (List.mem_filter.mpr ⟨List.mem_append_left _ hl, hm⟩)
        · rw [if_neg hcc]
          exact List.ne_nil_of_mem (List.mem_filter.mpr ⟨hl, hm⟩)
    rcases hmem ls hls with rfl | rfl | ⟨rfl, hfl, hbug⟩
    · obtain ⟨p, hp, rfl⟩ := List.mem_map.mp hs
      exact priPrefix_pluginLabel p
    · obtain ⟨p, hp, rfl⟩ := List.mem_map.mp hs
      exact priPrefix_platformLabel p
    · exact absurd hfl hne
  · intro ls hls hex
    obtain ⟨s, hs, hspre⟩ := hex
    rcases hmem ls hls with rfl | rfl | ⟨rfl, hfl, hbug⟩
    · obtain ⟨p, hp, hpe⟩ := List.mem_map.mp hs
      have hfalse : startsWithChars "[Pri]".data s.data = false := by
        rw [← hpe]
        exact priPrefix_pluginLabel p
      rw [hfalse] at hspre
      exact Bool.noConfusion hspre
    · obtain ⟨p, hp, hpe⟩ := List.mem_map.mp hs
      have hfalse : startsWithChars "[Pri]".data s.data = false := by
        rw [← hpe]
        exact priPrefix_platformLabel p
      rw [hfalse] at hspre
      exact Bool.noConfusion hspre
    · exact ⟨hbug, hfl⟩

/-- Witness for C5 at a concrete opened event carrying an existing priority
    label and a bug label: the invariant theorem applies and yields that no
    added label is priority-prefixed. -/
theorem priority_label_invariant_witness :
    (("opened" : String) = "opened" ∨ ("opened" : String) = "reopened") ∧
    (∀ l ∈ (["[Pri] High", "[Type] Bug"] : List String), ∀ c ∈ l.data, dotChar c = true) ∧
    (∃ l ∈ (["[Pri] High", "[Type] Bug"] : List String),
        startsWithChars "[Pri] ".data l.data = true) ∧
    (∀ ls, Effect.addLabels ls ∈ labelPhase "opened" "x" ["[Pri] High", "[Type] Bug"] none →
        ∀ s ∈ ls, startsWithChars "[Pri]".data s.data = false) := by
  refine ⟨Or.inl rfl, by decide, by decide, ?_⟩
  exact (priority_label_invariant "opened" "x" ["[Pri] High", "[Type] Bug"] none
    (Or.inl rfl) (by decide)).1 (by decide)

/-- C6: the claim says the mutation is attempted only when the freshly
    fetched Priority options hold an option named like the priority text, and
    that otherwise the write is skipped without error.  The code contradicts
    the error-freedom: on a board whose Priority options lack Low, the option
    lookup of line 428 itself raises a TypeError on reading id of undefined,
    and the run as a whole raises a ReferenceError (line 424) before even
    reaching that check, so the run always errors; no mutation appears in the
    trace. -/
theorem missing_option_raises_rather_than_skips :
    priorityOptionLookup [⟨"opt_normal", "Normal"⟩] priorityText =
      Except.error (JsError.typeError "Cannot read properties of undefined (reading id)") ∧
    triageIssues cfgValid envNoLowOption evEmptyBody =
      ([Effect.graphqlQuery "getProject", Effect.graphqlQuery "getProjectNumber",
        Effect.graphqlQuery "getIssueProjectDetails"],
       Except.error (JsError.referenceError "projectNodeId is not defined")) :=
  ⟨rfl, rfl⟩

/-- C7: when the automation token or the board link is missing, the run
    reports failure and returns normally with a trace holding exactly that
    one failure report: no remote query, no label call, no mutation. -/
theorem missing_config_reports_and_stops
    (cfg : Config) (env : RemoteEnv) (ev : IssueEvent)
    (h : cfg.project_automation_token = "" ∨ cfg.project_board = "") :
    ∃ msg, triageIssues cfg env ev = ([Effect.setFailed msg], Except.ok ()) := by
  unfold triageIssues
  rcases h with h | h
  · rw [if_pos h]
    exact ⟨_, rfl⟩
  · by_cases ht : cfg.project_automation_token = ""
    · rw [if_pos ht]
      exact ⟨_, rfl⟩
    · rw [if_neg ht, if_pos h]
      exact ⟨_, rfl⟩

/-- Witness for C7: the missing-token configuration aborts with a single
    failure report. -/
theorem missing_config_reports_and_stops_witness :
    (cfgNoToken.project_automation_token = "" ∨ cfgNoToken.project_board = "") ∧
    ∃ msg, triageIssues cfgNoToken envBenign evPlain =
      ([Effect.setFailed msg], Except.ok ()) :=
  ⟨Or.inl rfl, missing_config_reports_and_stops cfgNoToken envBenign evPlain (Or.inl rfl)⟩

/-- C8: a body in which the literal marker words of the three sections do not
    occur makes findPlugins and findPlatforms return the empty list and
    findPriority return TBD; being total Lean functions, none of the parsers
    can throw. -/
theorem parsers_empty_without_markers (body : String)
    (h1 : ¬ "Impacted".data <:+: body.data)
    (h2 : ¬ "Platform".data <:+: body.data)
    (h3 : ¬ "Impact".data <:+: body.data) :
    findPlugins body = [] ∧ findPlatforms body = [] ∧ findPriority body = "TBD" := by
  refine ⟨?_, ?_, ?_⟩
  · unfold findPlugins
    rw [scanPlugins_none h1]
  · unfold findPlatforms
    rw [scanPlatforms_none h2]
  · unfold findPriority
    rw [scanPriority_none h3]

/-- Witness for C8 at a concrete marker-free body. -/
theorem parsers_empty_without_markers_witness :
    (¬ "Impacted".data <:+: "Hello, world".data) ∧
    (¬ "Platform".data <:+: "Hello, world".data) ∧
    (¬ "Impact".data <:+: "Hello, world".data) ∧
    findPlugins "Hello, world" = [] ∧ findPlatforms "Hello, world" = [] ∧
    findPriority "Hello, world" = "TBD" := by
  have h := parsers_empty_without_markers "Hello, world" (by decide) (by decide) (by decide)
  exact ⟨by decide, by decide, by decide, h.1, h.2.1, h.2.2⟩

/-- C9: on every body whose platform section matches, findPlatforms is the
    comma-space split of the capture with the literal Self-hosted entry and
    the entries trimming to empty removed; in particular Self-hosted never
    appears in the output and no output entry trims to empty. -/
theorem findPlatforms_drops_self_hosted (body : String) (cap : List Char)
    (h : scanList tryPlatformsAt body.data = some cap) :
    findPlatforms body =
      ((splitCommaSpace cap).filter
          (fun v => v ≠ "Self-hosted".data && jsTrim v ≠ [])).map (fun v => String.mk v)
    ∧ "Self-hosted" ∉ findPlatforms body
    ∧ ∀ p ∈ findPlatforms body, jsTrim p.data ≠ [] := by
  have h1 : findPlatforms body =
      ((splitCommaSpace cap).filter
          (fun v => v ≠ "Self-hosted".data && jsTrim v ≠ [])).map (fun v => String.mk v) := by
    unfold findPlatforms
    rw [h]
  refine ⟨h1, ?_, ?_⟩
  · rw [h1]
    intro hmem
    obtain ⟨v, hv, hveq⟩ := List.mem_map.mp hmem
    have hpred := (List.mem_filter.mp hv).2
    rw [Bool.and_eq_true] at hpred
    have hne : v ≠ "Self-hosted".data := by simpa using hpred.1
    apply hne
    have h2 := congrArg String.data hveq
    simpa using h2
  · rw [h1]
    intro p hp
    obtain ⟨v, hv, hveq⟩ := List.mem_map.mp hp
    have hpred := (List.mem_filter.mp hv).2
    rw [Bool.and_eq_true] at hpred
    have h2 : jsTrim v ≠ [] := by simpa using hpred.2
    rw [← hveq]
    simpa using h2

/-- Witness for C9 at a platform section that lists Self-hosted between two
    real platforms: the scan matches, Self-hosted is dropped, and the two
    platforms survive. -/
theorem findPlatforms_drops_self_hosted_witness :
    scanList tryPlatformsAt bodyPlatforms.data = some capPlatforms ∧
    "Self-hosted" ∉ findPlatforms bodyPlatforms ∧
    findPlatforms bodyPlatforms = ["Simple", "Atomic"] := by
  have h : scanList tryPlatformsAt bodyPlatforms.data = some capPlatforms := rfl
  exact ⟨h, (findPlatforms_drops_self_hosted bodyPlatforms capPlatforms h).2.1, rfl⟩

/-- C10: getItemNodeId answers the hardcoded item node id for every successful
    query result, and consequently no board mutation of any run can target a
    different item: every effect of every trace satisfies the target check
    (vacuously so for runs, which never reach the mutation call). -/
theorem getItemNodeId_hardcoded_target :
    (∀ r : ItemQueryResult, getItemNodeId (Except.ok r) =
      ([Effect.graphqlQuery "getIssueProjectDetails"],
       Except.ok "PVTI_lADOCGvWfc4AUwHEzgI4tDo")) ∧
    ∀ cfg env ev, (triageIssues cfg env ev).1.all mutationTargetsItem = true := by
  constructor
  · intro r
    rfl
  · intro cfg env ev
    rw [List.all_eq_true]
    intro e he
    rcases triage_trace_shape cfg env ev e he with ⟨m, rfl⟩ | ⟨q, rfl⟩ <;> rfl

end RepoGardening
